import Mathlib

/-!
Shallow embedding of the cluster lifecycle orchestrator of the
dolphinscheduler-ec2-on-aws repository, together with proofs of its
specified properties.

The embedding follows the Python source:
  * `src/aws/ec2.py` — instance provisioning (idempotent create, parallel
    batches, round-robin subnet placement, readiness prober);
  * `src/commands/create.py` — the create-cluster orchestrator, its
    DeploymentState ledger and rollback;
  * `src/commands/scale.py` — the scaling engine;
  * `src/deploy/installer.py` — service start ordering;
  * `src/utils/validator.py` — configuration validation.

Cloud and network side effects are modelled explicitly: the EC2 fleet is a
value (`EC2World`), remote calls are driven by environment oracles, and
side-effecting calls append to an effect trace.
-/

namespace DS

/-! ## EC2 world model (src/aws/ec2.py) -/

/-- EC2 instance lifecycle states used by the state filters. -/
inductive InstState where
  | pending
  | running
  | stopping
  | stopped
  | shuttingDown
  | terminated
deriving DecidableEq, Repr

/-- One EC2 instance as the provisioner sees it: resource id, `Name` tag,
lifecycle state, resolved address and placement. -/
structure EC2Inst where
  instId : Nat
  tagName : String
  state : InstState
  privateIp : String
  subnetId : String
  az : String
deriving DecidableEq, Repr

/-- The regional EC2 fleet plus the platform's willingness to create
(quota): the mutable world that boto3 calls read and write. -/
structure EC2World where
  instances : List EC2Inst
  nextId : Nat
  allowCreate : Bool
deriving DecidableEq, Repr

/-- The deterministic identity tag `ds-{component}-{index}`
(ec2.py line 84 / line 166). -/
def identityTag (component : String) (index : Nat) : String :=
  s!"ds-{component}-{index}"

/-- The "live" state filter `['running', 'pending']` of the idempotent
lookup (ec2.py line 170). -/
def isLive (s : InstState) : Bool :=
  s = InstState.running || s = InstState.pending

/-- Embedding of `ec2.instances.filter(Filters=[tag:Name=tag, instance-state-name in
[running, pending]])` (ec2.py lines 167-172). -/
def liveByTag (w : EC2World) (tag : String) : List EC2Inst :=
  w.instances.filter (fun i => i.tagName = tag && isLive i.state)

/-- Number of live instances carrying a given identity tag. -/
def liveCount (w : EC2World) (tag : String) : Nat :=
  (liveByTag w tag).length

/-- Function `create_ec2_instance` (ec2.py lines 51-146): unconditionally asks the
platform for one instance tagged with the identity tag, waits until it is
running, and returns it; the platform may reject creation (quota / invalid
shape), which surfaces as an error. -/
def create_ec2_instance (w : EC2World) (component : String) (index : Nat)
    (subnetId az : String) : Except String (EC2Inst × EC2World) :=
  if w.allowCreate then
    let inst : EC2Inst :=
      { instId := w.nextId
        tagName := identityTag component index
        state := InstState.running
        privateIp := s!"10.0.0.{w.nextId}"
        subnetId := subnetId
        az := az }
    Except.ok (inst, { w with instances := w.instances ++ [inst], nextId := w.nextId + 1 })
  else
    Except.error s!"ProvisionError {component} {index}"

/-- Function `create_ec2_instance_idempotent` (ec2.py lines 149-180): look up live
instances by the identity tag; if any exists return the first unchanged,
otherwise create a new one. -/
def create_ec2_instance_idempotent (w : EC2World) (component : String) (index : Nat)
    (subnetId az : String) : Except String (EC2Inst × EC2World) :=
  match liveByTag w (identityTag component index) with
  | [] => create_ec2_instance w component index subnetId az
  | inst :: _ => Except.ok (inst, w)

/-! ## Round-robin placement (ec2.py line 203, create.py lines 111-130) -/

/-- Placeholder subnet record: `{'subnet_id': ..., 'availability_zone': ...}`. -/
structure Subnet where
  subnetId : String
  az : String
deriving DecidableEq, Repr, Inhabited

/-- One entry of the distribution computed by `distribute_nodes_across_azs`. -/
structure NodeDist where
  index : Nat
  subnetId : String
  az : String
deriving DecidableEq, Repr

/-- Function `distribute_nodes_across_azs` (create.py lines 111-130): node `i` is
assigned `subnets[i % len(subnets)]`. -/
def distribute_nodes_across_azs (count : Nat) (subnets : List Subnet) : List NodeDist :=
  (List.range count).map (fun i =>
    let subnet := subnets.getD (i % subnets.length) default
    { index := i, subnetId := subnet.subnetId, az := subnet.az })

/-- The subnet handed to unit `i` of `create_instances_parallel`
(ec2.py line 203): `subnets[i % len(subnets)]`. -/
def cipSubnetFor (subnets : List Subnet) (i : Nat) : Subnet :=
  subnets.getD (i % subnets.length) default

/-! ## Readiness prober (ec2.py lines 270-317) -/

/-- Events observable from one `wait_for_service_ready` run: a connect
attempt (with its outcome, attempt numbers starting at 0) or a
`time.sleep(retry_interval)`. -/
inductive ProbeEvent where
  | attempt (i : Nat) (ok : Bool)
  | sleep
deriving DecidableEq, Repr

/-- Whether an event is a connect attempt. -/
def ProbeEvent.isAttempt : ProbeEvent → Bool
  | ProbeEvent.attempt _ _ => true
  | ProbeEvent.sleep => false

/-- The loop body of `wait_for_service_ready` (ec2.py lines 307-317),
driven by an oracle `probe` giving the outcome of `is_service_running`
at each attempt index: `i` is the current attempt index and the second
argument the number of remaining iterations.  An attempt that succeeds
returns immediately; after a failed attempt the loop sleeps unless this
was the last iteration (`i < max_retries - 1`). -/
def waitGo (probe : Nat → Bool) (i : Nat) : Nat → List ProbeEvent × Bool
  | 0 => ([], false)
  | r + 1 =>
    if probe i then
      ([ProbeEvent.attempt i true], true)
    else if r = 0 then
      ([ProbeEvent.attempt i false], false)
    else
      let rest := waitGo probe (i + 1) r
      (ProbeEvent.attempt i false :: ProbeEvent.sleep :: rest.1, rest.2)

/-- Function `wait_for_service_ready` (ec2.py lines 294-317): bounded retry of
`is_service_running`; returns the event trace and the boolean result.
It never raises (`is_service_running` catches all socket errors). -/
def wait_for_service_ready (probe : Nat → Bool) (max_retries : Nat) :
    List ProbeEvent × Bool :=
  waitGo probe 0 max_retries

/-- Connect attempts performed in a trace. -/
def attemptCount (evs : List ProbeEvent) : Nat :=
  evs.countP (fun e => e.isAttempt)

/-- Sleeps performed in a trace. -/
def sleepCount (evs : List ProbeEvent) : Nat :=
  evs.countP (fun e => !e.isAttempt)

/-! ## Parallel batch provisioning (ec2.py lines 183-221) -/

/-- Result of one provisioning future: the created instance, or the
exception it raised. -/
abbrev UnitResult := Except String EC2Inst

/-- Whether a future raised. -/
def UnitResult.isErr : UnitResult → Bool
  | Except.error _ => true
  | Except.ok _ => false

/-- The `as_completed` collection loop of `create_instances_parallel`
(ec2.py lines 213-219), over the futures' results in completion order:
successes are appended to the local list; the first failure observed is
re-raised, and the partial successes collected so far are discarded with
the local list. -/
def collectFutures (acc : List EC2Inst) : List UnitResult → Except String (List EC2Inst)
  | [] => Except.ok acc
  | Except.ok inst :: rest => collectFutures (acc ++ [inst]) rest
  | Except.error e :: _ => Except.error e

/-- Function `create_instances_parallel` (ec2.py lines 183-221) as seen from its
caller, given the per-unit results in completion order. -/
def create_instances_parallel (results : List UnitResult) : Except String (List EC2Inst) :=
  collectFutures [] results

/-- Instances actually created by a batch: every future that completed
successfully created a live EC2 instance, whether or not
`create_instances_parallel` survived to return it. -/
def batchCreated (results : List UnitResult) : List EC2Inst :=
  results.filterMap (fun r => r.toOption)

/-! ## The create-cluster orchestrator (src/commands/create.py) -/

/-- Errors raised inside `create_cluster`. -/
inductive OrchErr where
  | provision (msg : String)
  | ssh (host : String)
  | nodeInit (host : String)
  | userSetup (host : String)
  | sshKeys
  | hostsFile
  | deploy
  | startSvc
  | indexErr
deriving DecidableEq, Repr

/-- Observable side effects of the orchestrator and the scaling engine. -/
inductive Effect where
  | terminate (ids : List Nat)
  | probe (host : String) (port : Nat) (ok : Bool)
  | stopService (component : String) (host : String)
  | startWorkerSvc (host : String)
  | createBatch (count : Nat)
  | saveCfg
  | hostsUpdate
deriving DecidableEq, Repr

/-- The `DeploymentState` ledger (create.py lines 97-108). -/
structure DeploymentState where
  created_instances : List EC2Inst
  init_nodes : List String
deriving DecidableEq, Repr

/-- Environment oracle driving one `create_cluster` run: the four
provisioning batches' future results (in completion order) and the
outcomes of every remote interaction. -/
structure CreateEnv where
  masterBatch : List UnitResult
  workerBatch : List UnitResult
  apiBatch : List UnitResult
  alertBatch : List UnitResult
  sshOk : String → Bool
  nodeInitOk : String → Bool
  userOk : String → Bool
  sshKeysOk : Bool
  hostsFileOk : Bool
  deployOk : Bool
  startOk : Bool
  healthOk : String → Nat → Bool

/-- The value returned by a successful `create_cluster`
(create.py lines 308-312): exactly the keys `success`, `instances`
(per component) and `api_endpoint` — nothing else. -/
structure CreateResult where
  success : Bool
  masters : List EC2Inst
  workers : List EC2Inst
  apis : List EC2Inst
  alerts : List EC2Inst
  api_endpoint : String
deriving DecidableEq, Repr

/-- Function `initialize_nodes_parallel` (create.py lines 45-71): each node whose
`initialize_node` future succeeds is recorded in the ledger's
initialized-nodes list; the first observed failure is re-raised. -/
def initNodesGo (nodeInitOk : String → Bool) :
    List String → DeploymentState → Except OrchErr Unit × DeploymentState
  | [], st => (Except.ok (), st)
  | h :: rest, st =>
    if nodeInitOk h then
      initNodesGo nodeInitOk rest { st with init_nodes := st.init_nodes ++ [h] }
    else
      (Except.error (OrchErr.nodeInit h), st)

/-- The service verification tail of `create_cluster`
(create.py lines 287-305): probe master port 5678, worker port 1234 and
api port 12345 on every node; the boolean outcomes are logged only. -/
def verifyServices (healthOk : String → Nat → Bool)
    (masters workers apis : List EC2Inst) : List Effect :=
  masters.map (fun i => Effect.probe i.privateIp 5678 (healthOk i.privateIp 5678)) ++
    workers.map (fun i => Effect.probe i.privateIp 1234 (healthOk i.privateIp 1234)) ++
    apis.map (fun i => Effect.probe i.privateIp 12345 (healthOk i.privateIp 12345))

/-- Forward phases 1-6 of `create_cluster` (create.py lines 146-312),
returning the outcome, the final ledger and the verification effects. -/
def createForward (env : CreateEnv) :
    Except OrchErr CreateResult × DeploymentState × List Effect :=
  let st0 : DeploymentState := ⟨[], []⟩
  match create_instances_parallel env.masterBatch with
  | Except.error e => (Except.error (OrchErr.provision e), st0, [])
  | Except.ok masters =>
    let st1 : DeploymentState := { st0 with created_instances := st0.created_instances ++ masters }
    match create_instances_parallel env.workerBatch with
    | Except.error e => (Except.error (OrchErr.provision e), st1, [])
    | Except.ok workers =>
      let st2 : DeploymentState := { st1 with created_instances := st1.created_instances ++ workers }
      match create_instances_parallel env.apiBatch with
      | Except.error e => (Except.error (OrchErr.provision e), st2, [])
      | Except.ok apis =>
        let st3 : DeploymentState := { st2 with created_instances := st2.created_instances ++ apis }
        match create_instances_parallel env.alertBatch with
        | Except.error e => (Except.error (OrchErr.provision e), st3, [])
        | Except.ok alerts =>
          let st4 : DeploymentState := { st3 with created_instances := st3.created_instances ++ alerts }
          let all_hosts := (masters ++ workers ++ apis ++ alerts).map EC2Inst.privateIp
          match all_hosts.find? (fun h => !env.sshOk h) with
          | some h => (Except.error (OrchErr.ssh h), st4, [])
          | none =>
            match initNodesGo env.nodeInitOk all_hosts st4 with
            | (Except.error e, st5) => (Except.error e, st5, [])
            | (Except.ok _, st5) =>
              match all_hosts.find? (fun h => !env.userOk h) with
              | some h => (Except.error (OrchErr.userSetup h), st5, [])
              | none =>
                if !env.sshKeysOk then (Except.error OrchErr.sshKeys, st5, [])
                else if !env.hostsFileOk then (Except.error OrchErr.hostsFile, st5, [])
                else if !env.deployOk then (Except.error OrchErr.deploy, st5, [])
                else if !env.startOk then (Except.error OrchErr.startSvc, st5, [])
                else
                  let probes := verifyServices env.healthOk masters workers apis
                  match apis.map EC2Inst.privateIp with
                  | [] => (Except.error OrchErr.indexErr, st5, probes)
                  | apiHost :: _ =>
                    (Except.ok
                      { success := true
                        masters := masters, workers := workers
                        apis := apis, alerts := alerts
                        api_endpoint := s!"http://{apiHost}:12345/dolphinscheduler" },
                      st5, probes)

/-- Function `rollback_deployment` (create.py lines 347-365): one bulk
`terminate_instances` call over the ids recorded in the ledger, skipped
when the ledger is empty. -/
def rollback_deployment (st : DeploymentState) : List Effect :=
  if st.created_instances.isEmpty then []
  else [Effect.terminate (st.created_instances.map EC2Inst.instId)]

/-- Function `create_cluster` (create.py lines 133-318): run the forward phases;
on any raised error, roll back the ledger and re-raise. -/
def create_cluster (env : CreateEnv) :
    Except OrchErr CreateResult × DeploymentState × List Effect :=
  match createForward env with
  | (Except.ok r, st, effs) => (Except.ok r, st, effs)
  | (Except.error e, st, effs) => (Except.error e, st, effs ++ rollback_deployment st)

/-- Instance ids terminated over a whole effect trace. -/
def terminatedIds (effs : List Effect) : List Nat :=
  effs.foldr (fun e acc => match e with
    | Effect.terminate ids => ids ++ acc
    | _ => acc) []

/-- All instances created by the four provisioning batches of a run. -/
def envCreated (env : CreateEnv) : List EC2Inst :=
  batchCreated env.masterBatch ++ batchCreated env.workerBatch ++
    batchCreated env.apiBatch ++ batchCreated env.alertBatch

/-- The hosts of all instances created by a run. -/
def envHosts (env : CreateEnv) : List String :=
  (envCreated env).map EC2Inst.privateIp

/-! ## Theorems: C1 idempotent provisioning -/

lemma liveByTag_append (w : EC2World) (tag : String) (i : EC2Inst) (n : Nat) (b : Bool) :
    liveByTag { instances := w.instances ++ [i], nextId := n, allowCreate := b } tag =
      liveByTag w tag ++ List.filter (fun j => j.tagName = tag && isLive j.state) [i] := by
  simp [liveByTag, List.filter_append]

/-- C1. Idempotent provisioning: if a provisioning call for `(component, index)`
returns instance `i1` in world `w1`, then a second call for the same
`(component, index)` with no intervening termination returns the same
instance and leaves the world unchanged (no new creation); and the
invariant "at most one live instance carries the identity tag" is
preserved by the call. -/
theorem C1_provision_idempotent (w : EC2World) (component : String) (index : Nat)
    (s1 a1 s2 a2 : String) (i1 : EC2Inst) (w1 : EC2World)
    (h : create_ec2_instance_idempotent w component index s1 a1 = Except.ok (i1, w1)) :
    create_ec2_instance_idempotent w1 component index s2 a2 = Except.ok (i1, w1) ∧
      (liveCount w (identityTag component index) ≤ 1 →
        liveCount w1 (identityTag component index) ≤ 1) := by
  unfold create_ec2_instance_idempotent at h
  cases hl : liveByTag w (identityTag component index) with
  | cons inst rest =>
      rw [hl] at h
      simp only [Except.ok.injEq, Prod.mk.injEq] at h
      obtain ⟨hi, hw⟩ := h
      subst hi; subst hw
      constructor
      · unfold create_ec2_instance_idempotent
        rw [hl]
      · intro hle
        exact hle
  | nil =>
      rw [hl] at h
      unfold create_ec2_instance at h
      by_cases hc : w.allowCreate
      · rw [if_pos hc] at h
        simp only [Except.ok.injEq, Prod.mk.injEq] at h
        obtain ⟨hi, hw⟩ := h
        have hlive : liveByTag w1 (identityTag component index) = [i1] := by
          rw [← hw, ← hi]
          rw [liveByTag_append]
          rw [hl]
          simp [isLive]
        constructor
        · unfold create_ec2_instance_idempotent
          rw [hlive, ← hw]
        · intro _
          unfold liveCount
          rw [hlive]
          simp
      · rw [if_neg hc] at h
        exact absurd h (by simp)

/-- Concrete instance returned by provisioning `("master", 0)` in the empty world. -/
def wit1Inst : EC2Inst :=
  { instId := 0, tagName := identityTag "master" 0, state := InstState.running,
    privateIp := "10.0.0.0", subnetId := "s", az := "a" }

/-- World after provisioning `("master", 0)` in the empty world. -/
def wit1World : EC2World :=
  { instances := [wit1Inst], nextId := 1, allowCreate := true }

/-- Witness for C1 at a concrete input: the empty fleet, provisioning
`("master", 0)` once, then probing the theorem's conclusions. -/
theorem C1_provision_idempotent_witness :
    create_ec2_instance_idempotent wit1World "master" 0 "s2" "a2" =
        Except.ok (wit1Inst, wit1World) ∧
      (liveCount (EC2World.mk [] 0 true) (identityTag "master" 0) ≤ 1 →
        liveCount wit1World (identityTag "master" 0) ≤ 1) :=
  C1_provision_idempotent (EC2World.mk [] 0 true) "master" 0 "s" "a" "s2" "a2"
    wit1Inst wit1World rfl

/-! ## Batch and ledger lemmas -/

/-- A batch in which no future raised. -/
def batchOk (results : List UnitResult) : Prop :=
  ∀ r ∈ results, r.isErr = false

lemma collectFutures_ok (results : List UnitResult) (h : batchOk results) :
    ∀ acc, collectFutures acc results = Except.ok (acc ++ batchCreated results) := by
  induction results with
  | nil => intro acc; simp [collectFutures, batchCreated]
  | cons r rest ih =>
      intro acc
      cases r with
      | ok inst =>
          have hrest : batchOk rest := fun x hx => h x (List.mem_cons_of_mem _ hx)
          simp only [collectFutures, batchCreated, List.filterMap_cons]
          rw [ih hrest]
          simp [batchCreated, Except.toOption]
      | error e =>
          have := h (Except.error e) (List.mem_cons_self _ _)
          simp [UnitResult.isErr] at this

lemma create_instances_parallel_ok (results : List UnitResult) (h : batchOk results) :
    create_instances_parallel results = Except.ok (batchCreated results) := by
  rw [create_instances_parallel, collectFutures_ok results h]
  simp

lemma collectFutures_err (results : List UnitResult)
    (h : ∃ r ∈ results, r.isErr = true) :
    ∀ acc, ∃ e, collectFutures acc results = Except.error e := by
  induction results with
  | nil => obtain ⟨r, hr, _⟩ := h; simp at hr
  | cons r rest ih =>
      intro acc
      cases r with
      | error e => exact ⟨e, rfl⟩
      | ok inst =>
          have hrest : ∃ x ∈ rest, x.isErr = true := by
            obtain ⟨x, hx, hb⟩ := h
            rcases List.mem_cons.mp hx with heq | hmem
            · subst heq; simp [UnitResult.isErr] at hb
            · exact ⟨x, hmem, hb⟩
          exact ih hrest (acc ++ [inst])

lemma create_instances_parallel_err (results : List UnitResult)
    (h : ∃ r ∈ results, r.isErr = true) :
    ∃ e, create_instances_parallel results = Except.error e :=
  collectFutures_err results h []

lemma initNodesGo_created (f : String → Bool) :
    ∀ (hosts : List String) (st : DeploymentState),
      ((initNodesGo f hosts st).2).created_instances = st.created_instances := by
  intro hosts
  induction hosts with
  | nil => intro st; rfl
  | cons h rest ih =>
      intro st
      by_cases hf : f h
      · simp only [initNodesGo, hf, if_pos]
        exact ih _
      · simp [initNodesGo, hf]

lemma initNodesGo_all_ok (f : String → Bool) :
    ∀ (hosts : List String) (st : DeploymentState), (∀ h ∈ hosts, f h = true) →
      initNodesGo f hosts st =
        (Except.ok (), { st with init_nodes := st.init_nodes ++ hosts }) := by
  intro hosts
  induction hosts with
  | nil => intro st _; simp [initNodesGo]
  | cons h rest ih =>
      intro st hall
      have hf : f h = true := hall h (List.mem_cons_self _ _)
      simp only [initNodesGo, hf, if_pos]
      rw [ih _ (fun x hx => hall x (List.mem_cons_of_mem _ hx))]
      simp

lemma initNodesGo_fail (f : String → Bool) :
    ∀ (hosts : List String) (st : DeploymentState), (∃ h ∈ hosts, f h = false) →
      ∃ h st', initNodesGo f hosts st = (Except.error (OrchErr.nodeInit h), st') ∧
        f h = false ∧ st'.created_instances = st.created_instances := by
  intro hosts
  induction hosts with
  | nil => rintro st ⟨h, hmem, _⟩; simp at hmem
  | cons h rest ih =>
      intro st hex
      by_cases hf : f h
      · have hrest : ∃ x ∈ rest, f x = false := by
          obtain ⟨x, hx, hb⟩ := hex
          rcases List.mem_cons.mp hx with heq | hmem
          · subst heq; rw [hf] at hb; exact absurd hb (by simp)
          · exact ⟨x, hmem, hb⟩
        obtain ⟨h', st', heq, hb, hc⟩ := ih { st with init_nodes := st.init_nodes ++ [h] } hrest
        refine ⟨h', st', ?_, hb, hc⟩
        simp only [initNodesGo, hf, if_pos]
        exact heq
      · exact ⟨h, st, by simp [initNodesGo, hf], by simpa using hf, rfl⟩

/-! ## Theorems: C2 rollback completeness -/

/-- C2. Rollback completeness: when all four provisioning batches succeed
and SSH becomes available on every host (phases 1-2), but node
initialization (phase 3) fails for some host, `create_cluster` rolls back
by issuing exactly one bulk terminate over precisely the ids recorded in
the `DeploymentState` ledger — which are exactly the ids of all `N`
created instances, no more, no fewer — and re-raises the original error. -/
theorem C2_rollback_completeness (env : CreateEnv)
    (hm : batchOk env.masterBatch) (hw : batchOk env.workerBatch)
    (ha : batchOk env.apiBatch) (hal : batchOk env.alertBatch)
    (hssh : ∀ h ∈ envHosts env, env.sshOk h = true)
    (hinit : ∃ h ∈ envHosts env, env.nodeInitOk h = false) :
    ∃ h st,
      create_cluster env =
        (Except.error (OrchErr.nodeInit h), st,
          [Effect.terminate ((envCreated env).map EC2Inst.instId)]) ∧
        env.nodeInitOk h = false ∧
        st.created_instances = envCreated env ∧
        terminatedIds (create_cluster env).2.2 = (envCreated env).map EC2Inst.instId := by
  have hm' := create_instances_parallel_ok _ hm
  have hw' := create_instances_parallel_ok _ hw
  have ha' := create_instances_parallel_ok _ ha
  have hal' := create_instances_parallel_ok _ hal
  have hhosts : (batchCreated env.masterBatch ++ batchCreated env.workerBatch ++
      batchCreated env.apiBatch ++ batchCreated env.alertBatch).map EC2Inst.privateIp =
      envHosts env := by
    simp [envHosts, envCreated]
  have hfind : ((batchCreated env.masterBatch ++ batchCreated env.workerBatch ++
      batchCreated env.apiBatch ++ batchCreated env.alertBatch).map EC2Inst.privateIp).find?
      (fun h => !env.sshOk h) = none := by
    rw [List.find?_eq_none]
    intro x hx
    rw [hhosts] at hx
    simp [hssh x hx]
  obtain ⟨h1, st5, heq, hbad1, hcreated⟩ :=
    initNodesGo_fail env.nodeInitOk
      ((batchCreated env.masterBatch ++ batchCreated env.workerBatch ++
        batchCreated env.apiBatch ++ batchCreated env.alertBatch).map EC2Inst.privateIp)
      ⟨[] ++ batchCreated env.masterBatch ++ batchCreated env.workerBatch ++
        batchCreated env.apiBatch ++ batchCreated env.alertBatch, []⟩
      (by rw [hhosts]; exact hinit)
  have hstc : st5.created_instances = envCreated env := by
    rw [hcreated]; simp [envCreated]
  have hne : ¬ st5.created_instances.isEmpty := by
    rw [hstc]
    obtain ⟨h0, hmem, _⟩ := hinit
    simp only [envHosts, List.mem_map] at hmem
    obtain ⟨i, hi, _⟩ := hmem
    intro hemp
    rw [List.isEmpty_iff.mp hemp] at hi
    simp at hi
  have hfwd : createForward env = (Except.error (OrchErr.nodeInit h1), st5, []) := by
    simp only [createForward, hm', hw', ha', hal', hfind, heq]
  have hne' : envCreated env ≠ [] := by
    intro hh
    rw [hstc, hh] at hne
    simp at hne
  refine ⟨h1, st5, ?_, hbad1, hstc, ?_⟩
  · simp only [create_cluster, hfwd, List.nil_append, rollback_deployment, hstc]
    simp [hne']
  · simp only [create_cluster, hfwd, List.nil_append, rollback_deployment, hstc]
    simp [terminatedIds, hne']

/-- Concrete instance used by the orchestrator witnesses. -/
def mkInst (n : Nat) (ip : String) : EC2Inst :=
  { instId := n, tagName := identityTag "node" n, state := InstState.running,
    privateIp := ip, subnetId := "s", az := "a" }

/-- Concrete environment: five instances over four healthy batches, SSH
fine everywhere, but node initialization fails on host `h2`. -/
def c2Env : CreateEnv :=
  { masterBatch := [Except.ok (mkInst 0 "h0"), Except.ok (mkInst 1 "h1")]
    workerBatch := [Except.ok (mkInst 2 "h2")]
    apiBatch := [Except.ok (mkInst 3 "h3")]
    alertBatch := [Except.ok (mkInst 4 "h4")]
    sshOk := fun _ => true
    nodeInitOk := fun h => decide (h ≠ "h2")
    userOk := fun _ => true
    sshKeysOk := true
    hostsFileOk := true
    deployOk := true
    startOk := true
    healthOk := fun _ _ => true }

/-- Witness for C2: five instances provisioned, initialization fails on
`h2`, and rollback terminates exactly the five recorded ids. -/
theorem C2_rollback_completeness_witness :
    ∃ h st,
      create_cluster c2Env =
        (Except.error (OrchErr.nodeInit h), st,
          [Effect.terminate ((envCreated c2Env).map EC2Inst.instId)]) ∧
        c2Env.nodeInitOk h = false ∧
        st.created_instances = envCreated c2Env ∧
        terminatedIds (create_cluster c2Env).2.2 = (envCreated c2Env).map EC2Inst.instId :=
  C2_rollback_completeness c2Env
    (by intro r hr; fin_cases hr <;> rfl)
    (by intro r hr; fin_cases hr <;> rfl)
    (by intro r hr; fin_cases hr <;> rfl)
    (by intro r hr; fin_cases hr <;> rfl)
    (fun _ _ => rfl)
    ⟨"h2", by decide, by decide⟩

/-! ## Theorems: C3 partial-failure rollback scope (corrected) -/

/-- Concrete run in which the first master future succeeds and the second
raises: one instance is actually created, yet nothing reaches the ledger. -/
def c3Env : CreateEnv :=
  { masterBatch := [Except.ok (mkInst 0 "h0"), Except.error "quota"]
    workerBatch := []
    apiBatch := []
    alertBatch := []
    sshOk := fun _ => true
    nodeInitOk := fun _ => true
    userOk := fun _ => true
    sshKeysOk := true
    hostsFileOk := true
    deployOk := true
    startOk := true
    healthOk := fun _ _ => true }

/-- Counterexample to C3 as stated: in `c3Env` the failed master batch
actually created instance 0, but `create_instances_parallel` discards the
partial success when re-raising, the ledger stays empty, and rollback
terminates nothing — a strict subset of what was created. -/
theorem C3_counterexample :
    (batchCreated c3Env.masterBatch).map EC2Inst.instId = [0] ∧
      create_cluster c3Env =
        (Except.error (OrchErr.provision "quota"), ⟨[], []⟩, []) ∧
      terminatedIds (create_cluster c3Env).2.2 ≠
        (batchCreated c3Env.masterBatch).map EC2Inst.instId := by
  refine ⟨rfl, rfl, ?_⟩
  decide

/-- Position of a provisioning batch in the order `create_cluster` runs
them (create.py lines 154-198). -/
inductive BatchIdx where
  | master
  | worker
  | api
  | alert
deriving DecidableEq, Repr

/-- The future results of the batch at a given position. -/
def envBatch (env : CreateEnv) : BatchIdx → List UnitResult
  | BatchIdx.master => env.masterBatch
  | BatchIdx.worker => env.workerBatch
  | BatchIdx.api => env.apiBatch
  | BatchIdx.alert => env.alertBatch

/-- All batches strictly before a given position fully succeeded. -/
def earlierBatchesOk (env : CreateEnv) : BatchIdx → Prop
  | BatchIdx.master => True
  | BatchIdx.worker => batchOk env.masterBatch
  | BatchIdx.api => batchOk env.masterBatch ∧ batchOk env.workerBatch
  | BatchIdx.alert =>
      batchOk env.masterBatch ∧ batchOk env.workerBatch ∧ batchOk env.apiBatch

/-- The instances the ledger holds when the batch at a given position is
reached: everything created by the strictly earlier batches. -/
def earlierCreated (env : CreateEnv) : BatchIdx → List EC2Inst
  | BatchIdx.master => []
  | BatchIdx.worker => batchCreated env.masterBatch
  | BatchIdx.api => batchCreated env.masterBatch ++ batchCreated env.workerBatch
  | BatchIdx.alert =>
      batchCreated env.masterBatch ++ batchCreated env.workerBatch ++
        batchCreated env.apiBatch

lemma terminatedIds_rollback (st : DeploymentState) :
    terminatedIds (rollback_deployment st) =
      st.created_instances.map EC2Inst.instId := by
  unfold rollback_deployment
  by_cases h : st.created_instances.isEmpty
  · rw [if_pos h, List.isEmpty_iff.mp h]
    rfl
  · rw [if_neg h]
    simp [terminatedIds]

/-- C3 (amended). When one or more units of any provisioning batch fail
while the earlier batches all succeeded, the orchestrator re-raises
without collecting the failed batch's partial successes: the ledger holds
exactly the earlier batches' instances, the rollback terminates exactly
those — not the resources actually created — and no instance of the
failed batch with a fresh id is terminated. -/
theorem C3_batch_failure_scope (env : CreateEnv) (b : BatchIdx)
    (hok : earlierBatchesOk env b)
    (hfail : ∃ r ∈ envBatch env b, r.isErr = true) :
    ∃ e,
      create_cluster env =
        (Except.error (OrchErr.provision e), ⟨earlierCreated env b, []⟩,
          rollback_deployment ⟨earlierCreated env b, []⟩) ∧
        terminatedIds (create_cluster env).2.2 =
          (earlierCreated env b).map EC2Inst.instId ∧
        (∀ i ∈ batchCreated (envBatch env b),
          i.instId ∉ (earlierCreated env b).map EC2Inst.instId →
          i.instId ∉ terminatedIds (create_cluster env).2.2) := by
  obtain ⟨e, he⟩ := create_instances_parallel_err _ hfail
  have hfwd : createForward env =
      (Except.error (OrchErr.provision e), ⟨earlierCreated env b, []⟩, []) := by
    cases b with
    | master =>
        simp only [envBatch] at he
        simp only [createForward, he]
        simp [earlierCreated]
    | worker =>
        simp only [envBatch] at he
        simp only [earlierBatchesOk] at hok
        have hm' := create_instances_parallel_ok _ hok
        simp only [createForward, hm', he]
        simp [earlierCreated]
    | api =>
        simp only [envBatch] at he
        simp only [earlierBatchesOk] at hok
        have hm' := create_instances_parallel_ok _ hok.1
        have hw' := create_instances_parallel_ok _ hok.2
        simp only [createForward, hm', hw', he]
        simp [earlierCreated]
    | alert =>
        simp only [envBatch] at he
        simp only [earlierBatchesOk] at hok
        have hm' := create_instances_parallel_ok _ hok.1
        have hw' := create_instances_parallel_ok _ hok.2.1
        have ha' := create_instances_parallel_ok _ hok.2.2
        simp only [createForward, hm', hw', ha', he]
        simp [earlierCreated]
  have hcc : create_cluster env =
      (Except.error (OrchErr.provision e), ⟨earlierCreated env b, []⟩,
        rollback_deployment ⟨earlierCreated env b, []⟩) := by
    simp only [create_cluster, hfwd, List.nil_append]
  refine ⟨e, hcc, ?_, ?_⟩
  · rw [hcc]
    exact terminatedIds_rollback _
  · intro i _ hnot
    rw [hcc]
    simpa [terminatedIds_rollback] using hnot

/-- Concrete run for the non-degenerate case of the amended C3: the
master batch succeeds (instances 0 and 1), then the worker batch creates
instance 2 but its second future raises. -/
def c3EnvW : CreateEnv :=
  { masterBatch := [Except.ok (mkInst 0 "h0"), Except.ok (mkInst 1 "h1")]
    workerBatch := [Except.ok (mkInst 2 "h2"), Except.error "quota"]
    apiBatch := []
    alertBatch := []
    sshOk := fun _ => true
    nodeInitOk := fun _ => true
    userOk := fun _ => true
    sshKeysOk := true
    hostsFileOk := true
    deployOk := true
    startOk := true
    healthOk := fun _ _ => true }

/-- Witness for the amended C3 at `c3EnvW`: the worker batch fails, the
rollback terminates exactly the master batch's ids 0 and 1, and the
worker batch's created instance 2 is not among them. -/
theorem C3_batch_failure_scope_witness :
    ∃ e,
      create_cluster c3EnvW =
        (Except.error (OrchErr.provision e),
          ⟨earlierCreated c3EnvW BatchIdx.worker, []⟩,
          rollback_deployment ⟨earlierCreated c3EnvW BatchIdx.worker, []⟩) ∧
        terminatedIds (create_cluster c3EnvW).2.2 =
          (earlierCreated c3EnvW BatchIdx.worker).map EC2Inst.instId ∧
        (∀ i ∈ batchCreated (envBatch c3EnvW BatchIdx.worker),
          i.instId ∉ (earlierCreated c3EnvW BatchIdx.worker).map EC2Inst.instId →
          i.instId ∉ terminatedIds (create_cluster c3EnvW).2.2) :=
  C3_batch_failure_scope c3EnvW BatchIdx.worker
    (by intro r hr; fin_cases hr <;> rfl)
    ⟨Except.error "quota", by simp [c3EnvW, envBatch], rfl⟩

/-! ## Theorems: C5 fail-soft tail phase (corrected) -/

/-- Whether an effect is a bulk terminate. -/
def Effect.isTerminate : Effect → Bool
  | Effect.terminate _ => true
  | _ => false

lemma terminatedIds_eq_nil (effs : List Effect)
    (h : ∀ e ∈ effs, e.isTerminate = false) : terminatedIds effs = [] := by
  induction effs with
  | nil => rfl
  | cons e rest ih =>
      have he := h e (List.mem_cons_self _ _)
      have hrest := ih (fun x hx => h x (List.mem_cons_of_mem _ hx))
      cases e
      case terminate ids => simp [Effect.isTerminate] at he
      all_goals simpa [terminatedIds] using hrest

lemma verifyServices_no_terminate (f : String → Nat → Bool) (a b c : List EC2Inst) :
    ∀ e ∈ verifyServices f a b c, e.isTerminate = false := by
  intro e he
  simp only [verifyServices, List.mem_append, List.mem_map] at he
  rcases he with (⟨i, _, rfl⟩ | ⟨i, _, rfl⟩) | ⟨i, _, rfl⟩ <;> rfl

lemma createForward_ok (env : CreateEnv) (i : EC2Inst) (tl : List EC2Inst)
    (hm : batchOk env.masterBatch) (hw : batchOk env.workerBatch)
    (ha : batchOk env.apiBatch) (hal : batchOk env.alertBatch)
    (hssh : ∀ h ∈ envHosts env, env.sshOk h = true)
    (hinit : ∀ h ∈ envHosts env, env.nodeInitOk h = true)
    (huser : ∀ h ∈ envHosts env, env.userOk h = true)
    (hkeys : env.sshKeysOk = true) (hhostsf : env.hostsFileOk = true)
    (hdeploy : env.deployOk = true) (hstart : env.startOk = true)
    (hcons : batchCreated env.apiBatch = i :: tl) :
    createForward env = (Except.ok
      { success := true
        masters := batchCreated env.masterBatch
        workers := batchCreated env.workerBatch
        apis := batchCreated env.apiBatch
        alerts := batchCreated env.alertBatch
        api_endpoint := s!"http://{i.privateIp}:12345/dolphinscheduler" },
      ⟨envCreated env, envHosts env⟩,
      verifyServices env.healthOk (batchCreated env.masterBatch)
        (batchCreated env.workerBatch) (batchCreated env.apiBatch)) := by
  have hm' := create_instances_parallel_ok _ hm
  have hw' := create_instances_parallel_ok _ hw
  have ha' := create_instances_parallel_ok _ ha
  have hal' := create_instances_parallel_ok _ hal
  have hhosts : (batchCreated env.masterBatch ++ batchCreated env.workerBatch ++
      batchCreated env.apiBatch ++ batchCreated env.alertBatch).map EC2Inst.privateIp =
      envHosts env := by
    simp [envHosts, envCreated]
  have hfindssh : ((batchCreated env.masterBatch ++ batchCreated env.workerBatch ++
      batchCreated env.apiBatch ++ batchCreated env.alertBatch).map EC2Inst.privateIp).find?
      (fun h => !env.sshOk h) = none := by
    rw [List.find?_eq_none]
    intro x hx
    rw [hhosts] at hx
    simp [hssh x hx]
  have hfinduser : ((batchCreated env.masterBatch ++ batchCreated env.workerBatch ++
      batchCreated env.apiBatch ++ batchCreated env.alertBatch).map EC2Inst.privateIp).find?
      (fun h => !env.userOk h) = none := by
    rw [List.find?_eq_none]
    intro x hx
    rw [hhosts] at hx
    simp [huser x hx]
  have hinitgo := initNodesGo_all_ok env.nodeInitOk
    ((batchCreated env.masterBatch ++ batchCreated env.workerBatch ++
      batchCreated env.apiBatch ++ batchCreated env.alertBatch).map EC2Inst.privateIp)
    ⟨[] ++ batchCreated env.masterBatch ++ batchCreated env.workerBatch ++
      batchCreated env.apiBatch ++ batchCreated env.alertBatch, []⟩
    (fun x hx => hinit x (by rw [← hhosts]; exact hx))
  simp only [createForward, hm', hw', ha', hal', hfindssh, hinitgo, hfinduser,
    hkeys, hhostsf, hdeploy, hstart, Bool.not_true, Bool.false_eq_true, if_false]
  rw [hcons]
  simp only [List.map_cons]
  simp [envCreated, envHosts, hcons]

/-- Environment in which everything up to and including StartServices
succeeds, but the post-start health probe on worker host `h2`
(port 1234) fails. -/
def c5EnvBad : CreateEnv :=
  { masterBatch := [Except.ok (mkInst 0 "h0"), Except.ok (mkInst 1 "h1")]
    workerBatch := [Except.ok (mkInst 2 "h2")]
    apiBatch := [Except.ok (mkInst 3 "h3")]
    alertBatch := [Except.ok (mkInst 4 "h4")]
    sshOk := fun _ => true
    nodeInitOk := fun _ => true
    userOk := fun _ => true
    sshKeysOk := true
    hostsFileOk := true
    deployOk := true
    startOk := true
    healthOk := fun h p => !(decide (h = "h2") && decide (p = 1234)) }

/-- Environment `c5EnvBad` with every health probe passing. -/
def c5EnvGood : CreateEnv :=
  { c5EnvBad with healthOk := fun _ _ => true }

/-- The `success` flag of a `create_cluster` outcome (false when it raised). -/
def resultSuccess : Except OrchErr CreateResult → Bool
  | Except.ok r => r.success
  | Except.error _ => false

/-- Counterexample to C5 as stated: in `c5EnvBad` the worker post-start
check fails, `create_cluster` still returns success and performs no
termination — but the returned value is identical to the all-healthy run,
so the failure is NOT reported in any status map: the result carries no
per-host status at all. -/
theorem C5_counterexample :
    resultSuccess (create_cluster c5EnvBad).1 = true ∧
      terminatedIds (create_cluster c5EnvBad).2.2 = [] ∧
      c5EnvBad.healthOk "h2" 1234 = false ∧
      Effect.probe "h2" 1234 false ∈ (create_cluster c5EnvBad).2.2 ∧
      (create_cluster c5EnvBad).1 = (create_cluster c5EnvGood).1 := by
  refine ⟨rfl, rfl, rfl, ?_, rfl⟩
  decide

/-- C5 (amended). If every phase through StartServices succeeds, then
whatever the post-start health-check outcomes are, `create_cluster`
returns success, performs no termination (no rollback), and its returned
value is exactly the one an all-healthy run returns — per-host check
failures are logged only, not reported in the result. -/
theorem C5_tail_phase_fail_soft (env : CreateEnv)
    (hm : batchOk env.masterBatch) (hw : batchOk env.workerBatch)
    (ha : batchOk env.apiBatch) (hal : batchOk env.alertBatch)
    (hssh : ∀ h ∈ envHosts env, env.sshOk h = true)
    (hinit : ∀ h ∈ envHosts env, env.nodeInitOk h = true)
    (huser : ∀ h ∈ envHosts env, env.userOk h = true)
    (hkeys : env.sshKeysOk = true) (hhostsf : env.hostsFileOk = true)
    (hdeploy : env.deployOk = true) (hstart : env.startOk = true)
    (hapi : batchCreated env.apiBatch ≠ []) :
    ∃ r, (create_cluster env).1 = Except.ok r ∧ r.success = true ∧
      terminatedIds (create_cluster env).2.2 = [] ∧
      (create_cluster env).1 =
        (create_cluster { env with healthOk := fun _ _ => true }).1 := by
  obtain ⟨i, tl, hcons⟩ := List.exists_cons_of_ne_nil hapi
  have h1 := createForward_ok env i tl hm hw ha hal hssh hinit huser hkeys hhostsf
    hdeploy hstart hcons
  have h2 := createForward_ok { env with healthOk := fun _ _ => true } i tl
    hm hw ha hal hssh hinit huser hkeys hhostsf hdeploy hstart hcons
  refine ⟨{ success := true
            masters := batchCreated env.masterBatch
            workers := batchCreated env.workerBatch
            apis := batchCreated env.apiBatch
            alerts := batchCreated env.alertBatch
            api_endpoint := s!"http://{i.privateIp}:12345/dolphinscheduler" }, ?_, rfl, ?_, ?_⟩
  · simp only [create_cluster, h1]
  · simp only [create_cluster, h1]
    exact terminatedIds_eq_nil _ (verifyServices_no_terminate _ _ _ _)
  · simp only [create_cluster, h1, h2]

/-- Witness for the amended C5 at the concrete run `c5EnvBad`. -/
theorem C5_tail_phase_fail_soft_witness :
    ∃ r, (create_cluster c5EnvBad).1 = Except.ok r ∧ r.success = true ∧
      terminatedIds (create_cluster c5EnvBad).2.2 = [] ∧
      (create_cluster c5EnvBad).1 =
        (create_cluster { c5EnvBad with healthOk := fun _ _ => true }).1 :=
  C5_tail_phase_fail_soft c5EnvBad
    (by intro r hr; fin_cases hr <;> rfl)
    (by intro r hr; fin_cases hr <;> rfl)
    (by intro r hr; fin_cases hr <;> rfl)
    (by intro r hr; fin_cases hr <;> rfl)
    (fun _ _ => rfl) (fun _ _ => rfl) (fun _ _ => rfl)
    rfl rfl rfl rfl (by decide)

/-! ## The scaling engine (src/commands/scale.py) -/

/-- A node entry of the persisted topology (`config['cluster'][c]['nodes']`). -/
structure NodeRec where
  host : String
  instance_id : Nat
deriving DecidableEq, Repr

/-- One component's persisted `count` and `nodes`. -/
structure CompCfg where
  count : Nat
  nodes : List NodeRec
deriving DecidableEq, Repr

/-- The persisted cluster topology. -/
structure ClusterCfg where
  master : CompCfg
  worker : CompCfg
  api : CompCfg
  alert : CompCfg
deriving DecidableEq, Repr

/-- The components the CLI allows scaling
(cli.py: `click.Choice(['master', 'worker', 'api'])`). -/
inductive Comp where
  | master
  | worker
  | api
deriving DecidableEq, Repr

/-- Lookup `config['cluster'][component]`. -/
def getComp (cfg : ClusterCfg) : Comp → CompCfg
  | Comp.master => cfg.master
  | Comp.worker => cfg.worker
  | Comp.api => cfg.api

/-- Update `config['cluster'][component] = c`. -/
def setComp (cfg : ClusterCfg) (component : Comp) (c : CompCfg) : ClusterCfg :=
  match component with
  | Comp.master => { cfg with master := c }
  | Comp.worker => { cfg with worker := c }
  | Comp.api => { cfg with api := c }

/-- Name `f"{component}-server"` (scale.py line 229). -/
def serviceName : Comp → String
  | Comp.master => "master-server"
  | Comp.worker => "worker-server"
  | Comp.api => "api-server"

/-- Environment oracle for one scale operation: outcomes of the remote
stop commands, the provisioning batch of scale-out, and the per-host
remote interactions of scale-out. -/
structure ScaleEnv where
  stopOk : String → Bool
  newBatch : List UnitResult
  sshOk : String → Bool
  nodeSetupOk : String → Bool
  hostsOk : Bool
  workerStartOk : String → Bool

/-- The stop loop of `scale_in` (scale.py lines 231-247): stop each
selected node's service in order; a connection/command failure raises,
keeping the stops already performed. -/
def stopServicesGo (stopOk : String → Bool) (service : String) :
    List NodeRec → Except String Unit × List Effect
  | [] => (Except.ok (), [])
  | n :: rest =>
    if stopOk n.host then
      let r := stopServicesGo stopOk service rest
      (r.1, Effect.stopService service n.host :: r.2)
    else
      (Except.error s!"stop failed on {n.host}", [])

/-- Function `terminate_instances` (ec2.py lines 224-244): no-op on an empty id
set, otherwise one bulk terminate call. -/
def terminate_instances (ids : List Nat) : List Effect :=
  if ids.isEmpty then [] else [Effect.terminate ids]

/-- Function `scale_in` (scale.py lines 183-276): validate the role's minimum
replica invariant first (master ≥ 2, api ≥ 1, worker ≥ 1) — a validation
failure raises before any effect; then stop services on the
most-recently-added `reduce_count` nodes, terminate them in bulk, drop
them from the topology and persist.  Python's `nodes[-n:]`/`nodes[:-n]`
slices are mirrored exactly, including the `n = 0` corner. -/
def scale_in (env : ScaleEnv) (cfg : ClusterCfg) (component : Comp)
    (reduce_count : Nat) : Except String ClusterCfg × List Effect :=
  let current_nodes := (getComp cfg component).nodes
  let current_count := current_nodes.length
  if component = Comp.master ∧ (current_count : Int) - (reduce_count : Int) < 2 then
    (Except.error "Cannot scale below 2 Master nodes (high availability requirement)", [])
  else if component = Comp.api ∧ (current_count : Int) - (reduce_count : Int) < 1 then
    (Except.error "Cannot scale below 1 API node", [])
  else if component = Comp.worker ∧ (current_count : Int) - (reduce_count : Int) < 1 then
    (Except.error "Cannot scale below 1 Worker node", [])
  else
    let nodes_to_remove :=
      if reduce_count = 0 then current_nodes
      else current_nodes.drop (current_count - reduce_count)
    let remaining_nodes :=
      if reduce_count = 0 then []
      else current_nodes.take (current_count - reduce_count)
    match stopServicesGo env.stopOk (serviceName component) nodes_to_remove with
    | (Except.error e, effs) => (Except.error e, effs)
    | (Except.ok _, effs) =>
      let instance_ids := nodes_to_remove.map NodeRec.instance_id
      let cfg' := setComp cfg component ⟨remaining_nodes.length, remaining_nodes⟩
      (Except.ok cfg', effs ++ terminate_instances instance_ids ++ [Effect.saveCfg])

/-- Function `scale_out` (scale.py lines 47-180): provision `additional_count` new
instances, wait for SSH, initialize each new host, append the new nodes
to the topology and bump the count, refresh the hosts file, persist, and
for the worker role start the worker service on each new host (master/api
scale-out only logs a restart warning). -/
def scale_out (env : ScaleEnv) (cfg : ClusterCfg) (component : Comp)
    (additional_count : Nat) : Except String ClusterCfg × List Effect :=
  match create_instances_parallel env.newBatch with
  | Except.error e => (Except.error e, [])
  | Except.ok new_instances =>
    let new_hosts := new_instances.map EC2Inst.privateIp
    match new_hosts.find? (fun h => !env.sshOk h) with
    | some h => (Except.error s!"SSH not available on {h}", [])
    | none =>
      match new_hosts.find? (fun h => !env.nodeSetupOk h) with
      | some h => (Except.error s!"node setup failed on {h}", [])
      | none =>
        if !env.hostsOk then (Except.error "hosts file update failed", [])
        else
          let new_recs := new_instances.map (fun i => NodeRec.mk i.privateIp i.instId)
          let comp0 := getComp cfg component
          let cfg' := setComp cfg component
            ⟨comp0.count + additional_count, comp0.nodes ++ new_recs⟩
          let baseEffs := [Effect.hostsUpdate, Effect.saveCfg]
          if component = Comp.worker then
            match new_hosts.find? (fun h => !env.workerStartOk h) with
            | some h => (Except.error s!"worker start failed on {h}", baseEffs)
            | none => (Except.ok cfg', baseEffs ++ new_hosts.map Effect.startWorkerSvc)
          else
            (Except.ok cfg', baseEffs)

/-- Function `scale_cluster` (scale.py lines 20-44): `delta = 0` is an immediate
no-op success; `delta > 0` scales out; `delta < 0` scales in. -/
def scale_cluster (env : ScaleEnv) (cfg : ClusterCfg) (component : Comp)
    (target_count : Nat) : Except String ClusterCfg × List Effect :=
  let current_count := (getComp cfg component).count
  if target_count = current_count then
    (Except.ok cfg, [])
  else if target_count > current_count then
    scale_out env cfg component (target_count - current_count)
  else
    scale_in env cfg component (current_count - target_count)

/-- The per-role minimum replica invariant of scale-in
(scale.py lines 204-211). -/
def minCount : Comp → Nat
  | Comp.master => 2
  | Comp.worker => 1
  | Comp.api => 1

/-! ## Theorems: C4 scale-in minimum-replica enforcement -/

/-- C4. Scale-in minimum enforcement: whenever removing `reduce_count`
nodes would leave a role below its minimum (master ≥ 2, worker ≥ 1,
api ≥ 1), `scale_in` raises a validation error with zero effects — no
service stop, no termination, no save — and the topology is unchanged;
and the same holds for the `scale` entry point whenever its computed
delta is such a violating scale-in. -/
theorem C4_scale_in_min_enforcement (env : ScaleEnv) (cfg : ClusterCfg)
    (component : Comp) (reduce_count : Nat)
    (hviol : ((getComp cfg component).nodes.length : Int) - (reduce_count : Int) <
      (minCount component : Int)) :
    (∃ msg, scale_in env cfg component reduce_count = (Except.error msg, [])) ∧
      (∀ target_count,
        (getComp cfg component).count = (getComp cfg component).nodes.length →
        target_count < (getComp cfg component).count →
        reduce_count = (getComp cfg component).count - target_count →
        ∃ msg, scale_cluster env cfg component target_count = (Except.error msg, [])) := by
  have hin : ∃ msg, scale_in env cfg component reduce_count = (Except.error msg, []) := by
    cases component with
    | master =>
        simp only [minCount] at hviol
        refine ⟨"Cannot scale below 2 Master nodes (high availability requirement)", ?_⟩
        simp only [scale_in]
        rw [if_pos ⟨trivial, by exact_mod_cast hviol⟩]
    | api =>
        simp only [minCount] at hviol
        refine ⟨"Cannot scale below 1 API node", ?_⟩
        simp only [scale_in]
        rw [if_neg (by simp), if_pos ⟨trivial, by exact_mod_cast hviol⟩]
    | worker =>
        simp only [minCount] at hviol
        refine ⟨"Cannot scale below 1 Worker node", ?_⟩
        simp only [scale_in]
        rw [if_neg (by simp), if_neg (by simp), if_pos ⟨trivial, by exact_mod_cast hviol⟩]
  refine ⟨hin, ?_⟩
  intro target_count hcnt hlt hred
  have hne : target_count ≠ (getComp cfg component).count := Nat.ne_of_lt hlt
  have hngt : ¬ target_count > (getComp cfg component).count := by omega
  obtain ⟨msg, hmsg⟩ := hin
  refine ⟨msg, ?_⟩
  simp only [scale_cluster, hne, hngt, if_false, if_neg, ← hred]
  simpa using hmsg

/-- Topology with exactly two master nodes, used by the scale witnesses. -/
def witCfg : ClusterCfg :=
  { master := ⟨2, [⟨"m0", 0⟩, ⟨"m1", 1⟩]⟩
    worker := ⟨1, [⟨"w0", 2⟩]⟩
    api := ⟨1, [⟨"a0", 3⟩]⟩
    alert := ⟨1, [⟨"l0", 4⟩]⟩ }

/-- Trivial scale environment for the witnesses. -/
def witScaleEnv : ScaleEnv :=
  { stopOk := fun _ => true
    newBatch := []
    sshOk := fun _ => true
    nodeSetupOk := fun _ => true
    hostsOk := true
    workerStartOk := fun _ => true }

/-- Witness for C4: `scale('master', 1)` with two masters raises and
performs zero effects. -/
theorem C4_scale_in_min_enforcement_witness :
    (∃ msg, scale_in witScaleEnv witCfg Comp.master 1 = (Except.error msg, [])) ∧
      (∀ target_count,
        (getComp witCfg Comp.master).count = (getComp witCfg Comp.master).nodes.length →
        target_count < (getComp witCfg Comp.master).count →
        1 = (getComp witCfg Comp.master).count - target_count →
        ∃ msg, scale_cluster witScaleEnv witCfg Comp.master target_count =
          (Except.error msg, [])) :=
  C4_scale_in_min_enforcement witScaleEnv witCfg Comp.master 1 (by decide)

/-! ## Theorems: C8 scale no-op on zero delta -/

/-- C8. Scale no-op: when the target count equals the current persisted
count, `scale_cluster` returns success immediately with an empty effect
trace — no instance created or terminated, no service touched, nothing
saved — and the returned topology is exactly the input topology. -/
theorem C8_scale_noop (env : ScaleEnv) (cfg : ClusterCfg) (component : Comp)
    (target_count : Nat) (h : target_count = (getComp cfg component).count) :
    scale_cluster env cfg component target_count = (Except.ok cfg, []) := by
  simp [scale_cluster, h]

/-- Witness for C8: `scale('master', 2)` with two masters is a no-op
success. -/
theorem C8_scale_noop_witness :
    scale_cluster witScaleEnv witCfg Comp.master 2 = (Except.ok witCfg, []) :=
  C8_scale_noop witScaleEnv witCfg Comp.master 2 rfl

/-! ## Service start ordering (src/deploy/installer.py lines 1587-1676) -/

/-- The four service roles, in their fixed start order. -/
inductive Role where
  | master
  | worker
  | api
  | alert
deriving DecidableEq, Repr

/-- Position of a role in the fixed start order. -/
def roleRank : Role → Nat
  | Role.master => 0
  | Role.worker => 1
  | Role.api => 2
  | Role.alert => 3

/-- One issued start command: role, host, and whether it succeeded. -/
structure StartEv where
  role : Role
  host : String
  ok : Bool
deriving DecidableEq, Repr

/-- The per-role node host lists of `config['cluster'][role]['nodes']`. -/
structure SvcNodes where
  masters : List String
  workers : List String
  apis : List String
  alerts : List String
deriving DecidableEq, Repr

/-- One role's sequential start loop in `start_services`: issue the start
command host by host; a failure raises immediately (events up to and
including the failed command are kept). -/
def startRoleGo (ok : String → Bool) (role : Role) : List String → List StartEv × Bool
  | [] => ([], true)
  | h :: rest =>
    if ok h then
      let r := startRoleGo ok role rest
      (StartEv.mk role h true :: r.1, r.2)
    else
      ([StartEv.mk role h false], false)

/-- The master phase of `start_services` (installer.py lines 1604-1619). -/
def mPhase (nodes : SvcNodes) (ok : Role → String → Bool) : List StartEv × Bool :=
  startRoleGo (ok Role.master) Role.master nodes.masters

/-- The worker phase of `start_services` (installer.py lines 1625-1639). -/
def wPhase (nodes : SvcNodes) (ok : Role → String → Bool) : List StartEv × Bool :=
  startRoleGo (ok Role.worker) Role.worker nodes.workers

/-- The api phase of `start_services` (installer.py lines 1641-1655). -/
def aPhase (nodes : SvcNodes) (ok : Role → String → Bool) : List StartEv × Bool :=
  startRoleGo (ok Role.api) Role.api nodes.apis

/-- Function `start_services` (installer.py lines 1587-1676): start every master,
then every worker, then every api, then the single alert node
(`alert['nodes'][0]`; an empty alert list raises IndexError); a failure
in any phase raises, so later phases issue no commands. -/
def start_services (nodes : SvcNodes) (ok : Role → String → Bool) :
    List StartEv × Bool :=
  if (mPhase nodes ok).2 = false then ((mPhase nodes ok).1, false)
  else if (wPhase nodes ok).2 = false then
    ((mPhase nodes ok).1 ++ (wPhase nodes ok).1, false)
  else if (aPhase nodes ok).2 = false then
    ((mPhase nodes ok).1 ++ (wPhase nodes ok).1 ++ (aPhase nodes ok).1, false)
  else
    match nodes.alerts with
    | [] => ((mPhase nodes ok).1 ++ (wPhase nodes ok).1 ++ (aPhase nodes ok).1, false)
    | h :: _ =>
      ((mPhase nodes ok).1 ++ (wPhase nodes ok).1 ++ (aPhase nodes ok).1 ++
        [StartEv.mk Role.alert h (ok Role.alert h)], ok Role.alert h)

/-! ## Theorems: C7 service start order -/

lemma startRoleGo_roles (ok : String → Bool) (role : Role) :
    ∀ (hosts : List String), ∀ e ∈ (startRoleGo ok role hosts).1, e.role = role := by
  intro hosts
  induction hosts with
  | nil => intro e he; simp [startRoleGo] at he
  | cons h rest ih =>
      intro e he
      by_cases hok : ok h
      · simp only [startRoleGo, hok, if_pos] at he
        rcases List.mem_cons.mp he with rfl | hmem
        · rfl
        · exact ih e hmem
      · simp only [startRoleGo, hok, if_neg, Bool.false_eq_true, not_false_eq_true,
          List.mem_singleton] at he
        subst he
        rfl

lemma startRoleGo_success (ok : String → Bool) (role : Role) :
    ∀ (hosts : List String), (startRoleGo ok role hosts).2 = true →
      (startRoleGo ok role hosts).1 = hosts.map (fun h => StartEv.mk role h true) := by
  intro hosts
  induction hosts with
  | nil => intro _; rfl
  | cons h rest ih =>
      intro hs
      by_cases hok : ok h
      · simp only [startRoleGo, hok, if_pos] at hs ⊢
        rw [List.map_cons, ih hs]
      · simp [startRoleGo, hok] at hs

lemma pairwise_rank_uniform (l : List StartEv) (r : Role)
    (h : ∀ e ∈ l, e.role = r) :
    l.Pairwise (fun e1 e2 => roleRank e1.role ≤ roleRank e2.role) := by
  induction l with
  | nil => exact List.Pairwise.nil
  | cons x xs ih =>
      refine List.Pairwise.cons ?_ (ih (fun e he => h e (List.mem_cons_of_mem _ he)))
      intro y hy
      rw [h x (List.mem_cons_self _ _), h y (List.mem_cons_of_mem _ hy)]

lemma pairwise_rank_append4 (M W A L : List StartEv)
    (hM : ∀ e ∈ M, e.role = Role.master) (hW : ∀ e ∈ W, e.role = Role.worker)
    (hA : ∀ e ∈ A, e.role = Role.api) (hL : ∀ e ∈ L, e.role = Role.alert) :
    (M ++ W ++ A ++ L).Pairwise (fun e1 e2 => roleRank e1.role ≤ roleRank e2.role) := by
  rw [List.pairwise_append]
  refine ⟨?_, pairwise_rank_uniform L Role.alert hL, ?_⟩
  · rw [List.pairwise_append]
    refine ⟨?_, pairwise_rank_uniform A Role.api hA, ?_⟩
    · rw [List.pairwise_append]
      refine ⟨pairwise_rank_uniform M Role.master hM,
        pairwise_rank_uniform W Role.worker hW, ?_⟩
      intro a ha b hb
      rw [hM a ha, hW b hb]
      decide
    · intro a ha b hb
      rcases List.mem_append.mp ha with h1 | h1
      · rw [hM a h1, hA b hb]; decide
      · rw [hW a h1, hA b hb]; decide
  · intro a ha b hb
    rcases List.mem_append.mp ha with h1 | h1
    · rcases List.mem_append.mp h1 with h2 | h2
      · rw [hM a h2, hL b hb]; decide
      · rw [hW a h2, hL b hb]; decide
    · rw [hA a h1, hL b hb]; decide

/-- C7. Service start order: every `start_services` trace splits into a
master block, then a worker block, then an api block, then an alert
block; if any command of a later role was issued, every node of each
earlier role was started (successfully) before it; and the issued
commands are sorted by the fixed role order (master=coordinator, worker,
api, alert). -/
theorem C7_service_start_order (nodes : SvcNodes) (ok : Role → String → Bool) :
    ∃ M W A L,
      (start_services nodes ok).1 = M ++ W ++ A ++ L ∧
        (∀ e ∈ M, e.role = Role.master) ∧ (∀ e ∈ W, e.role = Role.worker) ∧
        (∀ e ∈ A, e.role = Role.api) ∧ (∀ e ∈ L, e.role = Role.alert) ∧
        (W ≠ [] ∨ A ≠ [] ∨ L ≠ [] →
          M = nodes.masters.map (fun h => StartEv.mk Role.master h true)) ∧
        (A ≠ [] ∨ L ≠ [] →
          W = nodes.workers.map (fun h => StartEv.mk Role.worker h true)) ∧
        (L ≠ [] → A = nodes.apis.map (fun h => StartEv.mk Role.api h true)) ∧
        (start_services nodes ok).1.Pairwise
          (fun e1 e2 => roleRank e1.role ≤ roleRank e2.role) := by
  by_cases hm : (mPhase nodes ok).2 = false
  · refine ⟨(mPhase nodes ok).1, [], [], [], ?_, startRoleGo_roles _ _ _, ?_, ?_, ?_,
      ?_, ?_, ?_, ?_⟩
    · simp [start_services, hm]
    · intro e he; simp at he
    · intro e he; simp at he
    · intro e he; simp at he
    · rintro (h | h | h) <;> exact absurd rfl h
    · rintro (h | h) <;> exact absurd rfl h
    · intro h; exact absurd rfl h
    · simp only [start_services, hm, if_pos]
      exact pairwise_rank_uniform _ Role.master (startRoleGo_roles _ _ _)
  · have hm' : (mPhase nodes ok).2 = true := by
      cases h : (mPhase nodes ok).2
      · exact absurd h hm
      · rfl
    have hM := startRoleGo_success (ok Role.master) Role.master nodes.masters hm'
    by_cases hw : (wPhase nodes ok).2 = false
    · refine ⟨(mPhase nodes ok).1, (wPhase nodes ok).1, [], [], ?_,
        startRoleGo_roles _ _ _, startRoleGo_roles _ _ _, ?_, ?_, ?_, ?_, ?_, ?_⟩
      · simp [start_services, hm, hw]
      · intro e he; simp at he
      · intro e he; simp at he
      · intro _; exact hM
      · rintro (h | h) <;> exact absurd rfl h
      · intro h; exact absurd rfl h
      · simp only [start_services, hm, hw, if_pos, if_neg, Bool.true_eq_false,
          not_false_eq_true]
        have := pairwise_rank_append4 (mPhase nodes ok).1 (wPhase nodes ok).1 [] []
          (startRoleGo_roles _ _ _) (startRoleGo_roles _ _ _)
          (by intro e he; simp at he) (by intro e he; simp at he)
        simpa using this
    · have hw' : (wPhase nodes ok).2 = true := by
        cases h : (wPhase nodes ok).2
        · exact absurd h hw
        · rfl
      have hW := startRoleGo_success (ok Role.worker) Role.worker nodes.workers hw'
      by_cases ha : (aPhase nodes ok).2 = false
      · refine ⟨(mPhase nodes ok).1, (wPhase nodes ok).1, (aPhase nodes ok).1, [], ?_,
          startRoleGo_roles _ _ _, startRoleGo_roles _ _ _, startRoleGo_roles _ _ _,
          ?_, ?_, ?_, ?_, ?_⟩
        · simp [start_services, hm, hw, ha]
        · intro e he; simp at he
        · intro _; exact hM
        · intro _; exact hW
        · intro h; exact absurd rfl h
        · simp only [start_services, hm, hw, ha, if_pos, if_neg, Bool.true_eq_false,
            not_false_eq_true]
          have := pairwise_rank_append4 (mPhase nodes ok).1 (wPhase nodes ok).1
            (aPhase nodes ok).1 []
            (startRoleGo_roles _ _ _) (startRoleGo_roles _ _ _) (startRoleGo_roles _ _ _)
            (by intro e he; simp at he)
          simpa using this
      · have ha' : (aPhase nodes ok).2 = true := by
          cases h : (aPhase nodes ok).2
          · exact absurd h ha
          · rfl
        have hA := startRoleGo_success (ok Role.api) Role.api nodes.apis ha'
        cases hal : nodes.alerts with
        | nil =>
            refine ⟨(mPhase nodes ok).1, (wPhase nodes ok).1, (aPhase nodes ok).1, [], ?_,
              startRoleGo_roles _ _ _, startRoleGo_roles _ _ _, startRoleGo_roles _ _ _,
              ?_, ?_, ?_, ?_, ?_⟩
            · simp [start_services, hm, hw, ha, hal]
            · intro e he; simp at he
            · intro _; exact hM
            · intro _; exact hW
            · intro h; exact absurd rfl h
            · simp only [start_services, hm, hw, ha, hal, if_pos, if_neg,
                Bool.true_eq_false, not_false_eq_true]
              have := pairwise_rank_append4 (mPhase nodes ok).1 (wPhase nodes ok).1
                (aPhase nodes ok).1 []
                (startRoleGo_roles _ _ _) (startRoleGo_roles _ _ _)
                (startRoleGo_roles _ _ _) (by intro e he; simp at he)
              simpa using this
        | cons h0 rest =>
            refine ⟨(mPhase nodes ok).1, (wPhase nodes ok).1, (aPhase nodes ok).1,
              [StartEv.mk Role.alert h0 (ok Role.alert h0)], ?_,
              startRoleGo_roles _ _ _, startRoleGo_roles _ _ _, startRoleGo_roles _ _ _,
              ?_, ?_, ?_, ?_, ?_⟩
            · simp [start_services, hm, hw, ha, hal]
            · intro e he
              rcases List.mem_singleton.mp he with rfl
              rfl
            · intro _; exact hM
            · intro _; exact hW
            · intro _; exact hA
            · simp only [start_services, hm, hw, ha, hal, if_pos, if_neg,
                Bool.true_eq_false, not_false_eq_true]
              exact pairwise_rank_append4 (mPhase nodes ok).1 (wPhase nodes ok).1
                (aPhase nodes ok).1 [StartEv.mk Role.alert h0 (ok Role.alert h0)]
                (startRoleGo_roles _ _ _) (startRoleGo_roles _ _ _)
                (startRoleGo_roles _ _ _)
                (by intro e he; rcases List.mem_singleton.mp he with rfl; rfl)

/-- Witness for C7 at a concrete fleet: two masters, two workers, one
api, one alert, all starts succeeding. -/
theorem C7_service_start_order_witness :
    ∃ M W A L,
      (start_services (SvcNodes.mk ["m0", "m1"] ["w0", "w1"] ["a0"] ["l0"])
          (fun _ _ => true)).1 = M ++ W ++ A ++ L ∧
        (∀ e ∈ M, e.role = Role.master) ∧ (∀ e ∈ W, e.role = Role.worker) ∧
        (∀ e ∈ A, e.role = Role.api) ∧ (∀ e ∈ L, e.role = Role.alert) ∧
        (W ≠ [] ∨ A ≠ [] ∨ L ≠ [] →
          M = ["m0", "m1"].map (fun h => StartEv.mk Role.master h true)) ∧
        (A ≠ [] ∨ L ≠ [] →
          W = ["w0", "w1"].map (fun h => StartEv.mk Role.worker h true)) ∧
        (L ≠ [] → A = ["a0"].map (fun h => StartEv.mk Role.api h true)) ∧
        (start_services (SvcNodes.mk ["m0", "m1"] ["w0", "w1"] ["a0"] ["l0"])
          (fun _ _ => true)).1.Pairwise
          (fun e1 e2 => roleRank e1.role ≤ roleRank e2.role) :=
  C7_service_start_order (SvcNodes.mk ["m0", "m1"] ["w0", "w1"] ["a0"] ["l0"])
    (fun _ _ => true)

/-! ## Configuration validation (src/utils/validator.py lines 33-136) -/

/-- One master node entry as the AZ-spread check sees it. -/
structure MasterNode where
  availability_zone : Option String
deriving DecidableEq, Repr

/-- The configuration dictionary, restricted to the paths `validate_config`
reads.  `none` models an absent key. -/
structure Config where
  database_host : Option String
  database_username : Option String
  database_password : Option String
  database_database : Option String
  registry_servers : Option (List String)
  aws_region : Option String
  aws_vpc_id : Option String
  aws_subnets : Option (List Subnet)
  aws_key_name : Option String
  cluster_master_count : Option Int
  cluster_worker_count : Option Int
  cluster_api_count : Option Int
  deployment_user : Option String
  deployment_install_path : Option String
  storage_type : Option String
  storage_hdfs_namenode_host : Option String
  storage_hdfs_namenode_port : Option Int
  storage_bucket : Option String
  storage_region : Option String
  storage_access_key_id : Option String
  storage_secret_access_key : Option String
  storage_use_iam_role : Option Bool
  package_distribution_enabled : Option Bool
  package_distribution_s3_bucket : Option String
  package_distribution_s3_region : Option String
  cluster_master_nodes : List MasterNode
deriving DecidableEq, Repr

/-- Missing as a required string field: absent, or present but empty
(`value is None or (isinstance(value, (str, list)) and not value)`). -/
def optStrMissing : Option String → Bool
  | none => true
  | some s => s.isEmpty

/-- Missing as a required list field: absent or empty. -/
def optListMissing {α : Type} : Option (List α) → Bool
  | none => true
  | some l => l.isEmpty

/-- Missing as a required numeric field: only absence counts (a number is
neither `str` nor `list`, so `0` passes the required-field check). -/
def optNumMissing : Option Int → Bool
  | none => true
  | some _ => false

/-- Python falsiness of an optional number (`if not hdfs_port`):
absent or zero. -/
def optNumFalsy : Option Int → Bool
  | none => true
  | some n => n == 0

/-- Python falsiness of an optional boolean (`if not s3_use_iam`):
absent or false. -/
def optBoolFalsy : Option Bool → Bool
  | none => true
  | some b => !b

/-- Python `.upper()` (ASCII), written over the character list. -/
def pyUpper (s : String) : String :=
  String.mk (s.data.map Char.toUpper)

/-- Lookup `config.get('storage', {}).get('type', 'LOCAL').upper()`
(validator.py line 72). -/
def storageType (c : Config) : String :=
  pyUpper (c.storage_type.getD "LOCAL")

/-- The distinct truthy availability zones of the master nodes
(`set(node.get('availability_zone') for node in master_nodes
if node.get('availability_zone'))`, validator.py line 123). -/
def masterAZs (nodes : List MasterNode) : List String :=
  (nodes.filterMap (fun n => match n.availability_zone with
    | none => none
    | some az => if az.isEmpty then none else some az)).dedup

/-- Every check `validate_config` performs, in source order, as a pair of
the failure condition and the message appended to `errors` when it fails
(validator.py lines 46-130). -/
def validationChecks (c : Config) : List (Bool × String) :=
  [ (optStrMissing c.database_host, "Missing required field: database.host"),
    (optStrMissing c.database_username, "Missing required field: database.username"),
    (optStrMissing c.database_password, "Missing required field: database.password"),
    (optStrMissing c.database_database, "Missing required field: database.database"),
    (optListMissing c.registry_servers, "Missing required field: registry.servers"),
    (optStrMissing c.aws_region, "Missing required field: aws.region"),
    (optStrMissing c.aws_vpc_id, "Missing required field: aws.vpc_id"),
    (optListMissing c.aws_subnets, "Missing required field: aws.subnets"),
    (optStrMissing c.aws_key_name, "Missing required field: aws.key_name"),
    (optNumMissing c.cluster_master_count, "Missing required field: cluster.master.count"),
    (optNumMissing c.cluster_worker_count, "Missing required field: cluster.worker.count"),
    (optNumMissing c.cluster_api_count, "Missing required field: cluster.api.count"),
    (optStrMissing c.deployment_user, "Missing required field: deployment.user"),
    (optStrMissing c.deployment_install_path, "Missing required field: deployment.install_path"),
    (storageType c == "HDFS" && optStrMissing c.storage_hdfs_namenode_host,
      "Missing required field: storage.hdfs.namenode_host"),
    (storageType c == "HDFS" && optNumFalsy c.storage_hdfs_namenode_port,
      "Missing required field: storage.hdfs.namenode_port"),
    (storageType c == "S3" && optStrMissing c.storage_bucket,
      "Missing required field: storage.bucket (for S3 storage)"),
    (storageType c == "S3" && optStrMissing c.storage_region,
      "Missing required field: storage.region (for S3 storage)"),
    (storageType c == "S3" && optBoolFalsy c.storage_use_iam_role &&
        (optStrMissing c.storage_access_key_id || optStrMissing c.storage_secret_access_key),
      "S3 storage requires either use_iam_role=true or access_key_id/secret_access_key"),
    (c.package_distribution_enabled.getD false &&
        optStrMissing c.package_distribution_s3_bucket,
      "Missing required field: package_distribution.s3.bucket"),
    (c.package_distribution_enabled.getD false &&
        optStrMissing c.package_distribution_s3_region,
      "Missing required field: package_distribution.s3.region"),
    (decide (c.cluster_master_count.getD 0 < 2),
      "Master node count must be at least 2 for high availability"),
    (decide (c.cluster_api_count.getD 0 < 1), "API node count must be at least 1"),
    (decide (c.cluster_worker_count.getD 0 < 1), "Worker node count must be at least 1"),
    (!c.cluster_master_nodes.isEmpty &&
        decide ((masterAZs c.cluster_master_nodes).length < 2),
      "Master nodes must be distributed across at least 2 availability zones"),
    (decide ((c.aws_subnets.getD []).length < 2),
      "At least 2 subnets in different AZs are required for high availability") ]

/-- The `errors` list accumulated by `validate_config`: the messages of
the failing checks, in source order. -/
def validationErrors (c : Config) : List String :=
  (validationChecks c).filterMap (fun p => if p.1 then some p.2 else none)

/-- Function `validate_config` (validator.py lines 33-136): collect every failing
check, then raise once with all of them if any failed (the Python
exception message joins this list line by line), otherwise return `True`.
The embedding is a pure function of the configuration, so it cannot
mutate it. -/
def validate_config (c : Config) : Except (List String) Bool :=
  if (validationErrors c).isEmpty then Except.ok true
  else Except.error (validationErrors c)

/-! ## Theorems: C10 validation error aggregation -/

/-- C10. Validation aggregation: `validate_config` returns `True` exactly
when every one of its checks passes; when it raises, the error payload is
non-empty, carries the message of **every** violated check (it does not
stop at the first violation), and nothing but violated checks' messages;
and it never returns `False`.  Being a pure function, it leaves the
configuration unchanged. -/
theorem C10_validation_aggregation (c : Config) :
    (validate_config c = Except.ok true ↔ ∀ p ∈ validationChecks c, p.1 = false) ∧
      (∀ es, validate_config c = Except.error es →
        es ≠ [] ∧
          (∀ p ∈ validationChecks c, p.1 = true → p.2 ∈ es) ∧
          (∀ m ∈ es, ∃ p ∈ validationChecks c, p.1 = true ∧ p.2 = m)) ∧
      validate_config c ≠ Except.ok false := by
  have herr : ∀ p : Bool × String,
      (if p.1 then some p.2 else none) = none ↔ p.1 = false := by
    intro p
    by_cases hp : p.1 <;> simp [hp]
  refine ⟨?_, ?_, ?_⟩
  · constructor
    · intro h p hp
      by_cases he : (validationErrors c).isEmpty
      · have : validationErrors c = [] := List.isEmpty_iff.mp he
        have := List.filterMap_eq_nil.mp this p hp
        exact (herr p).mp this
      · simp [validate_config, he] at h
    · intro h
      have : validationErrors c = [] :=
        List.filterMap_eq_nil.mpr (fun p hp => (herr p).mpr (h p hp))
      simp [validate_config, this]
  · intro es hes
    by_cases he : (validationErrors c).isEmpty
    · simp [validate_config, he] at hes
    · simp only [validate_config, he, if_neg, Bool.false_eq_true, not_false_eq_true,
        if_false, Except.error.injEq] at hes
      subst hes
      refine ⟨fun hnil => he (by simp [hnil]), ?_, ?_⟩
      · intro p hp hfail
        apply List.mem_filterMap.mpr
        exact ⟨p, hp, by simp [hfail]⟩
      · intro m hm
        obtain ⟨p, hp, hfp⟩ := List.mem_filterMap.mp hm
        by_cases hb : p.1
        · simp only [hb, if_pos, Option.some.injEq] at hfp
          exact ⟨p, hp, hb, hfp⟩
        · simp [hb] at hfp
  · intro h
    by_cases he : (validationErrors c).isEmpty <;> simp [validate_config, he] at h

/-- A fully valid configuration. -/
def c10Ok : Config :=
  { database_host := some "db", database_username := some "u"
    database_password := some "p", database_database := some "ds"
    registry_servers := some ["zk1:2181"]
    aws_region := some "us-east-1", aws_vpc_id := some "vpc-1"
    aws_subnets := some [Subnet.mk "s0" "az0", Subnet.mk "s1" "az1"]
    aws_key_name := some "key"
    cluster_master_count := some 2, cluster_worker_count := some 1
    cluster_api_count := some 1
    deployment_user := some "dolphin", deployment_install_path := some "/opt/ds"
    storage_type := none
    storage_hdfs_namenode_host := none, storage_hdfs_namenode_port := none
    storage_bucket := none, storage_region := none
    storage_access_key_id := none, storage_secret_access_key := none
    storage_use_iam_role := none
    package_distribution_enabled := none
    package_distribution_s3_bucket := none, package_distribution_s3_region := none
    cluster_master_nodes := [] }

/-- Configuration `c10Ok` broken twice over: one master only and a single subnet. -/
def c10Bad : Config :=
  { c10Ok with
    cluster_master_count := some 1
    aws_subnets := some [Subnet.mk "s0" "az0"] }

/-- Witness for C10: the valid configuration passes; the doubly-broken
one raises a single error carrying both violations' messages. -/
theorem C10_validation_aggregation_witness :
    validate_config c10Ok = Except.ok true ∧
      (∃ es, validate_config c10Bad = Except.error es ∧
        "Master node count must be at least 2 for high availability" ∈ es ∧
        "At least 2 subnets in different AZs are required for high availability" ∈ es) := by
  constructor
  · exact (C10_validation_aggregation c10Ok).1.mpr (by decide)
  · refine ⟨validationErrors c10Bad, rfl, ?_, ?_⟩
    · exact ((C10_validation_aggregation c10Bad).2.1 _ rfl).2.1
        (decide (c10Bad.cluster_master_count.getD 0 < 2),
          "Master node count must be at least 2 for high availability")
        (by decide) (by decide)
    · exact ((C10_validation_aggregation c10Bad).2.1 _ rfl).2.1
        (decide ((c10Bad.aws_subnets.getD []).length < 2),
          "At least 2 subnets in different AZs are required for high availability")
        (by decide) (by decide)

/-! ## Theorems: C6 AZ round-robin placement -/

/-- C6. AZ round-robin: for a non-empty placement list with `N = subnets.length`,
`distribute_nodes_across_azs` (create.py) assigns node `i` exactly the
subnet `subnets[i % N]`, which is also the subnet `create_instances_parallel`
(ec2.py line 203) hands to unit `i`; consequently placement index `j < N`
serves exactly the instances `{j, j+N, j+2N, ...}`. -/
theorem C6_round_robin (count : Nat) (subnets : List Subnet) (hne : subnets ≠ []) :
    (distribute_nodes_across_azs count subnets).length = count ∧
      (∀ i, i < count →
        (distribute_nodes_across_azs count subnets)[i]? =
          some { index := i, subnetId := (cipSubnetFor subnets i).subnetId,
                 az := (cipSubnetFor subnets i).az } ∧
        subnets[i % subnets.length]? = some (cipSubnetFor subnets i)) ∧
      (∀ j, j < subnets.length → ∀ i,
        (i % subnets.length = j ↔ ∃ k, i = j + subnets.length * k)) := by
  have hlen : 0 < subnets.length := List.length_pos.mpr hne
  refine ⟨by simp [distribute_nodes_across_azs], ?_, ?_⟩
  · intro i hi
    have hmod : i % subnets.length < subnets.length := Nat.mod_lt _ hlen
    have hget : subnets[i % subnets.length]? = some subnets[i % subnets.length] :=
      List.getElem?_eq_getElem hmod
    have hcip : cipSubnetFor subnets i = subnets[i % subnets.length] := by
      unfold cipSubnetFor
      rw [List.getD_eq_getElem?_getD, hget]
      rfl
    constructor
    · simp only [distribute_nodes_across_azs, List.getElem?_map, List.getElem?_range, hi,
        if_pos, hcip]
      simp [hget]
    · rw [hcip, hget]
  · intro j hj i
    constructor
    · intro hmod
      refine ⟨i / subnets.length, ?_⟩
      conv_lhs => rw [← Nat.div_add_mod i subnets.length]
      omega
    · rintro ⟨k, rfl⟩
      rw [Nat.add_mul_mod_self_left]
      exact Nat.mod_eq_of_lt hj

/-- Witness for C6 at `C = 5`, `N = 2`: the placement pattern is
`[0, 1, 0, 1, 0]`. -/
theorem C6_round_robin_witness :
    (distribute_nodes_across_azs 5 [Subnet.mk "s0" "a0", Subnet.mk "s1" "a1"]).length = 5 ∧
      (∀ i, i < 5 →
        (distribute_nodes_across_azs 5 [Subnet.mk "s0" "a0", Subnet.mk "s1" "a1"])[i]? =
          some { index := i,
                 subnetId := (cipSubnetFor [Subnet.mk "s0" "a0", Subnet.mk "s1" "a1"] i).subnetId,
                 az := (cipSubnetFor [Subnet.mk "s0" "a0", Subnet.mk "s1" "a1"] i).az } ∧
        [Subnet.mk "s0" "a0", Subnet.mk "s1" "a1"][i % 2]? =
          some (cipSubnetFor [Subnet.mk "s0" "a0", Subnet.mk "s1" "a1"] i)) ∧
      (∀ j, j < 2 → ∀ i, (i % 2 = j ↔ ∃ k, i = j + 2 * k)) :=
  C6_round_robin 5 [Subnet.mk "s0" "a0", Subnet.mk "s1" "a1"] (by decide)

/-! ## Theorems: C9 readiness prober exhaustion -/

lemma waitGo_ne_nil (probe : Nat → Bool) (i r : Nat) (hr : r ≠ 0) :
    (waitGo probe i r).1 ≠ [] := by
  cases r with
  | zero => exact absurd rfl hr
  | succ r =>
      unfold waitGo
      by_cases hp : probe i
      · simp [hp]
      · by_cases h0 : r = 0
        · simp [hp, h0]
        · simp [hp, h0]

lemma waitGo_attempts_le (probe : Nat → Bool) : ∀ (r i : Nat),
    attemptCount (waitGo probe i r).1 ≤ r := by
  intro r
  induction r with
  | zero => intro i; simp [waitGo, attemptCount]
  | succ r ih =>
      intro i
      unfold waitGo
      by_cases hp : probe i
      · simp [hp, attemptCount, List.countP_cons, ProbeEvent.isAttempt]
      · by_cases h0 : r = 0
        · simp [hp, h0, attemptCount, List.countP_cons, ProbeEvent.isAttempt]
        · have := ih (i + 1)
          simp only [hp, h0, if_neg, if_false, Bool.false_eq_true, not_false_eq_true]
          simp only [attemptCount, List.countP_cons, ProbeEvent.isAttempt] at this ⊢
          simp
          omega

lemma waitGo_all_fail (probe : Nat → Bool) : ∀ (r i : Nat),
    (∀ j, j < r → probe (i + j) = false) →
    (waitGo probe i r).2 = false ∧
      attemptCount (waitGo probe i r).1 = r ∧
      sleepCount (waitGo probe i r).1 = r - 1 := by
  intro r
  induction r with
  | zero => intro i _; simp [waitGo, attemptCount, sleepCount]
  | succ r ih =>
      intro i h
      have hp : probe i = false := by simpa using h 0 (Nat.succ_pos r)
      unfold waitGo
      by_cases h0 : r = 0
      · subst h0
        simp [hp, attemptCount, sleepCount, List.countP_cons, ProbeEvent.isAttempt]
      · have hrec := ih (i + 1) (fun j hj => by
          have := h (j + 1) (by omega)
          simpa [Nat.add_assoc, Nat.add_comm 1 j] using this)
        simp only [hp, h0, if_neg, if_false, Bool.false_eq_true, not_false_eq_true]
        refine ⟨hrec.1, ?_, ?_⟩
        · simp only [attemptCount, List.countP_cons, ProbeEvent.isAttempt] at hrec ⊢
          simp
          omega
        · simp only [sleepCount, List.countP_cons, ProbeEvent.isAttempt] at hrec ⊢
          simp
          omega

lemma waitGo_first_success (probe : Nat → Bool) : ∀ (k r i : Nat), k < r →
    probe (i + k) = true → (∀ j, j < k → probe (i + j) = false) →
    (waitGo probe i r).2 = true ∧
      attemptCount (waitGo probe i r).1 = k + 1 ∧
      sleepCount (waitGo probe i r).1 = k := by
  intro k
  induction k with
  | zero =>
      intro r i hk hp _
      obtain ⟨r, rfl⟩ : ∃ m, r = m + 1 := ⟨r - 1, by omega⟩
      simp only [Nat.add_zero] at hp
      unfold waitGo
      simp [hp, attemptCount, sleepCount, List.countP_cons, ProbeEvent.isAttempt]
  | succ k ih =>
      intro r i hk hp hfail
      obtain ⟨r, rfl⟩ : ∃ m, r = m + 1 := ⟨r - 1, by omega⟩
      have hp0 : probe i = false := by simpa using hfail 0 (Nat.succ_pos k)
      have h0 : r ≠ 0 := by omega
      have hrec := ih r (i + 1) (by omega)
        (by simpa [Nat.add_assoc, Nat.add_comm 1 k] using hp)
        (fun j hj => by
          have := hfail (j + 1) (by omega)
          simpa [Nat.add_assoc, Nat.add_comm 1 j] using this)
      unfold waitGo
      simp only [hp0, h0, if_neg, if_false, Bool.false_eq_true, not_false_eq_true]
      refine ⟨hrec.1, ?_, ?_⟩
      · simp only [attemptCount, List.countP_cons, ProbeEvent.isAttempt] at hrec ⊢
        simp
        omega
      · simp only [sleepCount, List.countP_cons, ProbeEvent.isAttempt] at hrec ⊢
        simp
        omega

lemma waitGo_last_attempt (probe : Nat → Bool) : ∀ (r i : Nat) (e : ProbeEvent),
    (waitGo probe i r).1.getLast? = some e → e.isAttempt = true := by
  intro r
  induction r with
  | zero => intro i e he; simp [waitGo] at he
  | succ r ih =>
      intro i e he
      unfold waitGo at he
      by_cases hp : probe i
      · simp [hp] at he
        simp [← he, ProbeEvent.isAttempt]
      · by_cases h0 : r = 0
        · simp [hp, h0] at he
          simp [← he, ProbeEvent.isAttempt]
        · simp only [hp, h0, if_neg, if_false, Bool.false_eq_true, not_false_eq_true] at he
          have hne : (waitGo probe (i + 1) r).1 ≠ [] := waitGo_ne_nil probe (i + 1) r h0
          obtain ⟨x, xs, hxs⟩ := List.exists_cons_of_ne_nil hne
          rw [List.getLast?_cons_cons, hxs, List.getLast?_cons_cons] at he
          exact ih (i + 1) e (by rw [hxs]; exact he)

/-- C9. Readiness prober exhaustion: `wait_for_service_ready` performs at
most `max_retries` connection attempts; its trace never ends with a sleep
(no sleep after the last attempt); when every attempt fails it returns
`false` — it never raises, being a total function into `Bool` — after
exactly `max_retries` attempts and `max_retries - 1` sleeps; and when
attempt `k` is the first to succeed it returns `true` after exactly
`k + 1` attempts and `k` sleeps. -/
theorem C9_wait_ready_exhaustion (probe : Nat → Bool) (max_retries : Nat) :
    attemptCount (wait_for_service_ready probe max_retries).1 ≤ max_retries ∧
      (∀ e, (wait_for_service_ready probe max_retries).1.getLast? = some e →
        e.isAttempt = true) ∧
      ((∀ i, i < max_retries → probe i = false) →
        (wait_for_service_ready probe max_retries).2 = false ∧
          attemptCount (wait_for_service_ready probe max_retries).1 = max_retries ∧
          sleepCount (wait_for_service_ready probe max_retries).1 = max_retries - 1) ∧
      (∀ k, k < max_retries → probe k = true → (∀ j, j < k → probe j = false) →
        (wait_for_service_ready probe max_retries).2 = true ∧
          attemptCount (wait_for_service_ready probe max_retries).1 = k + 1 ∧
          sleepCount (wait_for_service_ready probe max_retries).1 = k) := by
  refine ⟨waitGo_attempts_le probe max_retries 0,
    fun e he => waitGo_last_attempt probe max_retries 0 e he,
    fun h => waitGo_all_fail probe max_retries 0 (fun j hj => by simpa using h j hj),
    fun k hk hp hfail => waitGo_first_success probe k max_retries 0 hk (by simpa using hp)
      (fun j hj => by simpa using hfail j hj)⟩

/-- Witness for C9: probing with a service that comes up at attempt 2,
with `max_retries = 5`: three attempts, two sleeps, success; and with a
service that never comes up: five attempts, four sleeps, failure. -/
theorem C9_wait_ready_exhaustion_witness :
    ((wait_for_service_ready (fun i => decide (i = 2)) 5).2 = true ∧
        attemptCount (wait_for_service_ready (fun i => decide (i = 2)) 5).1 = 3 ∧
        sleepCount (wait_for_service_ready (fun i => decide (i = 2)) 5).1 = 2) ∧
      ((wait_for_service_ready (fun _ => false) 5).2 = false ∧
        attemptCount (wait_for_service_ready (fun _ => false) 5).1 = 5 ∧
        sleepCount (wait_for_service_ready (fun _ => false) 5).1 = 4) :=
  ⟨(C9_wait_ready_exhaustion (fun i => decide (i = 2)) 5).2.2.2 2 (by decide) (by decide)
      (fun j hj => by interval_cases j <;> decide),
    (C9_wait_ready_exhaustion (fun _ => false) 5).2.2.1 (fun i _ => rfl)⟩

end DS
